import Mathlib

/-!
Verification of the cart/selection core of the proforceclient repository.

Shallow embedding conventions:
* JS numbers are modelled as rationals; the value NaN produced by a
  division 0 / 0 is modelled by the constructor JsNum.nan, and jsDiv
  models the JS division sum / length of the centroid code.
* A GeoJSON position is a pair (x, y) = (longitude, latitude).
* A computation that throws a TypeError at runtime (for example calling
  .map on undefined) is modelled by an Option-valued function returning
  none; a Redux reducer that throws leaves the store state unchanged,
  which dispatch reflects by keeping the previous state.
* The GeoJSON geometry types relevant to the code are modelled by the
  four constructors below; every further type (MultiPoint,
  MultiLineString, GeometryCollection) behaves exactly like lineString
  with respect to the string comparisons in the source, so lineString
  stands for every unsupported geometry type.
-/

/-- A JS number: either an ordinary rational value or NaN. -/
inductive JsNum where
  | nan : JsNum
  | num : ℚ → JsNum
deriving DecidableEq

/-- JS division of a sum by a list length: 0 / 0 is NaN. -/
def jsDiv (a : ℚ) (n : ℕ) : JsNum :=
  if n = 0 then JsNum.nan else JsNum.num (a / n)

/-- GeoJSON geometry, as used by the repository. -/
inductive Geometry where
  | point : ℚ × ℚ → Geometry
  | lineString : List (ℚ × ℚ) → Geometry
  | polygon : List (List (ℚ × ℚ)) → Geometry
  | multiPolygon : List (List (List (ℚ × ℚ))) → Geometry
deriving DecidableEq

/-- GeoJSON.Feature: the geometry member may be null (modelled none). -/
structure Feature where
  geometry : Option Geometry
deriving DecidableEq

/-- Region (src/src/types.ts): id, name, geojson, and the optional
derived center field that the reducers and MapView read and write. -/
structure Region where
  id : String
  name : String
  geojson : Feature
  center : Option (JsNum × JsNum)
deriving DecidableEq

/-- CartState (src/src/redux/slices/cartSlice.ts). -/
structure CartState where
  regions : List Region
  selectedRegion : Option Region
deriving DecidableEq

/-- initialState of the cart slice: empty list, no selection. -/
def initialState : CartState := { regions := [], selectedRegion := none }

/-- computeCenter from utils/geo.ts (the implementation imported by
cartSlice.ts).  Returns none exactly when the JS code throws: for a
Polygon whose coordinates array is empty, coordinates[0] is undefined
and the subsequent .map call raises a TypeError.  A Polygon branch with
a present first ring always succeeds; an empty first ring yields NaN
components via 0 / 0.  A null geometry, a Point, and every unsupported
type return a defined value. -/
def computeCenter (geojson : Feature) : Option (JsNum × JsNum) :=
  match geojson.geometry with
  | none => some (JsNum.num 0, JsNum.num 0)
  | some g =>
    match g with
    | Geometry.polygon rings =>
      match rings with
      | [] => none
      | coords :: _ =>
        let lats := coords.map Prod.snd
        let lngs := coords.map Prod.fst
        some (jsDiv (lngs.foldl (· + ·) 0) lngs.length,
              jsDiv (lats.foldl (· + ·) 0) lats.length)
    | Geometry.point c => some (JsNum.num c.1, JsNum.num c.2)
    | _ => some (JsNum.num 0, JsNum.num 0)

/-- The MapView-local computeCenter (src/src/components/MapView.tsx,
line 674).  It dereferences gj.geometry.type without a null check
(none on a null geometry models the TypeError), takes coordinates[0]
for a Polygon and coordinates[0][0] for a MultiPolygon (undefined
lookups again throw, modelled by the Option bind), and uses the empty
list for every other type, which produces (NaN, NaN) by 0 / 0. -/
def mapViewComputeCenter (gj : Feature) : Option (JsNum × JsNum) :=
  match gj.geometry with
  | none => none
  | some g =>
    let coordsOpt : Option (List (ℚ × ℚ)) :=
      match g with
      | Geometry.polygon rings => rings.head?
      | Geometry.multiPolygon polys => polys.head?.bind List.head?
      | _ => some []
    match coordsOpt with
    | none => none
    | some coords =>
      let lats := coords.map Prod.snd
      let lngs := coords.map Prod.fst
      some (jsDiv (lngs.foldl (· + ·) 0) lngs.length,
            jsDiv (lats.foldl (· + ·) 0) lats.length)

/-- addRegion reducer: if no existing region has the payload id,
unshift (prepend) the payload; otherwise do nothing. -/
def addRegion (s : CartState) (r : Region) : CartState :=
  if s.regions.any (fun x => x.id == r.id) then s
  else { s with regions := r :: s.regions }

/-- removeRegion reducer: keep the regions whose id differs from the
payload id. -/
def removeRegion (s : CartState) (id : String) : CartState :=
  { s with regions := s.regions.filter (fun r => r.id != id) }

/-- clearCart reducer: empty the regions list. -/
def clearCart (s : CartState) : CartState :=
  { s with regions := [] }

/-- updateRegion reducer: findIndex of the payload id; when found,
assign the payload at that index, otherwise do nothing. -/
def updateRegion (s : CartState) (r : Region) : CartState :=
  match s.regions.findIdx? (fun x => x.id == r.id) with
  | some idx => { s with regions := s.regions.set idx r }
  | none => s

/-- setSelectedRegion reducer: a null payload clears the selection; a
Region payload is destructured to id, name, geojson and stored with
center recomputed by computeCenter.  The reducer returns none when
computeCenter throws (the exception propagates out of the reducer). -/
def setSelectedRegion (s : CartState) (payload : Option Region) :
    Option CartState :=
  match payload with
  | none => some { s with selectedRegion := none }
  | some p =>
    match computeCenter p.geojson with
    | some c =>
      let sel : Region :=
        { id := p.id, name := p.name, geojson := p.geojson, center := some c }
      some { s with selectedRegion := some sel }
    | none => none

/-- The actions of the cart slice. -/
inductive CartAction where
  | addRegion : Region → CartAction
  | removeRegion : String → CartAction
  | clearCart : CartAction
  | updateRegion : Region → CartAction
  | setSelectedRegion : Option Region → CartAction
deriving DecidableEq

/-- Dispatching one action to the store.  When a reducer throws (only
setSelectedRegion can), the exception propagates out of dispatch and
the store keeps its previous state. -/
def dispatch (s : CartState) (a : CartAction) : CartState :=
  match a with
  | CartAction.addRegion r => addRegion s r
  | CartAction.removeRegion i => removeRegion s i
  | CartAction.clearCart => clearCart s
  | CartAction.updateRegion r => updateRegion s r
  | CartAction.setSelectedRegion p =>
    match setSelectedRegion s p with
    | some s2 => s2
    | none => s

/-- Running a sequence of actions from the initial state. -/
def run (acts : List CartAction) : CartState :=
  acts.foldl dispatch initialState

/-- The continuation of handleSelectRegion (src/src/components/
MapView.tsx, lines 804-816) after the reverse-geocoding promise
resolves with the display name: it dispatches setSelectedRegion with
the region id and geometry captured when the request began and the
center computed before the await.  No comparison of that id against the
current selectedRegion id occurs anywhere on this path. -/
def handleSelectRegionResolved (s : CartState) (id name : String)
    (gj : Feature) (center : Option (JsNum × JsNum)) : CartState :=
  dispatch s (CartAction.setSelectedRegion
    (some { id := id, name := name, geojson := gj, center := center }))

/-- A point feature at (x, y). -/
def ptFeature (x y : ℚ) : Feature := { geometry := some (Geometry.point (x, y)) }

/-- The 4-point square ring used by the testable properties of the spec. -/
def squareRing : List (ℚ × ℚ) := [(0, 0), (0, 2), (2, 2), (2, 0)]

/-- A Polygon feature whose single ring is the square ring. -/
def squareFeature : Feature :=
  { geometry := some (Geometry.polygon [squareRing]) }

/-- A Polygon feature with an empty coordinates array (no rings). -/
def emptyPolygonFeature : Feature :=
  { geometry := some (Geometry.polygon []) }

/-- A MultiPolygon feature whose first polygon has the square ring as
its first ring. -/
def mpSquareFeature : Feature :=
  { geometry := some (Geometry.multiPolygon [[squareRing]]) }

/-- Sample region a. -/
def regionA : Region :=
  { id := "a", name := "A", geojson := ptFeature 1 2, center := none }

/-- A second region carrying the id of regionA but different name and
geometry. -/
def regionA2 : Region :=
  { id := "a", name := "A other", geojson := ptFeature 9 9, center := none }

/-- Sample region b. -/
def regionB : Region :=
  { id := "b", name := "B", geojson := ptFeature 3 4, center := none }

/-- An updated variant of regionB (same id, new name and geometry). -/
def regionB2 : Region :=
  { id := "b", name := "B2", geojson := ptFeature 5 6, center := none }

/-- Sample region c, absent from the two-region state below. -/
def regionC : Region :=
  { id := "c", name := "C", geojson := ptFeature 7 8, center := none }

/-- A region whose stored center disagrees with the center computed
from its geometry. -/
def badCenterRegion : Region :=
  { id := "bad", name := "Bad", geojson := ptFeature 1 2,
    center := some (JsNum.num 5, JsNum.num 5) }

/-- A region whose geometry makes computeCenter throw. -/
def degenerateRegion : Region :=
  { id := "deg", name := "Deg", geojson := emptyPolygonFeature,
    center := some (JsNum.num 5, JsNum.num 5) }

/-- A cart holding regionA and regionB, nothing selected. -/
def twoRegionState : CartState :=
  { regions := [regionA, regionB], selectedRegion := none }

/-! ### Helper lemmas -/

theorem foldl_add_eq_sum (l : List ℚ) (a : ℚ) :
    l.foldl (· + ·) a = a + l.sum := by
  induction l generalizing a with
  | nil => simp
  | cons x xs ih => simp only [List.foldl_cons, List.sum_cons, ih (a + x)]; ring

theorem set_self_of_getElem {α : Type} (l : List α) (i : ℕ) (a : α)
    (h : l[i]? = some a) : l.set i a = l := by
  induction l generalizing i with
  | nil => simp at h
  | cons x xs ih =>
    cases i with
    | zero =>
      simp only [List.getElem?_cons_zero, Option.some.injEq] at h
      simp [h]
    | succ n =>
      simp only [List.getElem?_cons_succ] at h
      simp [List.set_cons_succ, ih n h]

theorem addRegion_selectedRegion_eq (s : CartState) (r : Region) :
    (addRegion s r).selectedRegion = s.selectedRegion := by
  unfold addRegion; split <;> rfl

theorem removeRegion_selectedRegion_eq (s : CartState) (i : String) :
    (removeRegion s i).selectedRegion = s.selectedRegion := rfl

theorem clearCart_selectedRegion_eq (s : CartState) :
    (clearCart s).selectedRegion = s.selectedRegion := rfl

theorem updateRegion_selectedRegion_eq (s : CartState) (r : Region) :
    (updateRegion s r).selectedRegion = s.selectedRegion := by
  unfold updateRegion; split <;> rfl

theorem setSelectedRegion_regions_eq (s : CartState) (p : Option Region)
    (s2 : CartState) (h : setSelectedRegion s p = some s2) :
    s2.regions = s.regions := by
  cases p with
  | none =>
    simp only [setSelectedRegion, Option.some.injEq] at h
    rw [← h]
  | some q =>
    simp only [setSelectedRegion] at h
    cases hc : computeCenter q.geojson with
    | none => rw [hc] at h; cases h
    | some c =>
      rw [hc] at h
      simp only [Option.some.injEq] at h
      rw [← h]

theorem dispatch_setSelectedRegion_regions (s : CartState) (p : Option Region) :
    (dispatch s (CartAction.setSelectedRegion p)).regions = s.regions := by
  show (match setSelectedRegion s p with | some s2 => s2 | none => s).regions
        = s.regions
  cases hs : setSelectedRegion s p with
  | none => rfl
  | some s2 => exact setSelectedRegion_regions_eq s p s2 hs

theorem run_invariant {P : CartState → Prop} (h0 : P initialState)
    (hstep : ∀ s a, P s → P (dispatch s a)) (acts : List CartAction) :
    P (run acts) := by
  suffices h : ∀ s, P s → P (acts.foldl dispatch s) from h initialState h0
  induction acts with
  | nil => intro s hs; exact hs
  | cons a as ih => intro s hs; exact ih (dispatch s a) (hstep s a hs)

theorem dispatch_preserves_ids_nodup (s : CartState) (a : CartAction)
    (h : (s.regions.map Region.id).Nodup) :
    ((dispatch s a).regions.map Region.id).Nodup := by
  cases a with
  | addRegion r =>
    show ((addRegion s r).regions.map Region.id).Nodup
    unfold addRegion
    by_cases hex : s.regions.any (fun x => x.id == r.id) = true
    · rw [if_pos hex]; exact h
    · rw [if_neg hex]
      simp only [List.map_cons, List.nodup_cons]
      refine ⟨?_, h⟩
      intro hmem
      obtain ⟨x, hx, hxid⟩ := List.mem_map.mp hmem
      have hall := List.any_eq_false.mp (Bool.not_eq_true _ ▸ hex)
      exact hall x hx (beq_iff_eq.mpr hxid)
  | removeRegion i =>
    show ((removeRegion s i).regions.map Region.id).Nodup
    exact List.Nodup.sublist ((List.filter_sublist s.regions).map Region.id) h
  | clearCart =>
    show (([] : List Region).map Region.id).Nodup
    simp
  | updateRegion r =>
    show ((updateRegion s r).regions.map Region.id).Nodup
    unfold updateRegion
    cases hidx : s.regions.findIdx? (fun x => x.id == r.id) with
    | none => exact h
    | some i =>
      obtain ⟨hlt, hp, -⟩ := List.findIdx?_eq_some_iff_getElem.mp hidx
      have hid : (s.regions[i]).id = r.id := beq_iff_eq.mp hp
      show ((s.regions.set i r).map Region.id).Nodup
      rw [List.map_set]
      have hmapget : (s.regions.map Region.id)[i]? = some r.id := by
        rw [List.getElem?_map, List.getElem?_eq_getElem hlt]
        simp [hid]
      rw [set_self_of_getElem _ _ _ hmapget]
      exact h
  | setSelectedRegion p =>
    rw [dispatch_setSelectedRegion_regions]
    exact h

/-- C1: every CartState reachable from the initial state by a sequence
of store actions has pairwise distinct region ids; each of the five
reducers preserves the no-duplicate-id invariant. -/
theorem run_regions_id_nodup (acts : List CartAction) :
    ((run acts).regions.map Region.id).Nodup :=
  run_invariant (by simp [initialState]) dispatch_preserves_ids_nodup acts

/-- C2: addRegion prepends the payload when no existing region shares
its id, and is the identity on the whole state (a silent skip, never an
overwrite) when some existing region already carries the id, even if
name or geometry differ. -/
theorem addRegion_spec (s : CartState) (r : Region) :
    ((∀ x ∈ s.regions, x.id ≠ r.id) →
        addRegion s r = { s with regions := r :: s.regions }) ∧
    ((∃ x ∈ s.regions, x.id = r.id) → addRegion s r = s) := by
  constructor
  · intro h
    have hno : ¬(s.regions.any (fun x => x.id == r.id) = true) := by
      rw [List.any_eq_true]
      rintro ⟨x, hx, hb⟩
      exact h x hx (beq_iff_eq.mp hb)
    unfold addRegion
    rw [if_neg hno]
  · rintro ⟨x, hx, hid⟩
    have hyes : s.regions.any (fun x => x.id == r.id) = true :=
      List.any_eq_true.mpr ⟨x, hx, beq_iff_eq.mpr hid⟩
    unfold addRegion
    rw [if_pos hyes]

/-- Witness for C2: adding a fresh id prepends; re-adding id a with a
different name and geometry leaves the state untouched. -/
theorem addRegion_spec_witness :
    addRegion { regions := [regionA], selectedRegion := none } regionB =
      { regions := [regionB, regionA], selectedRegion := none } ∧
    addRegion { regions := [regionA], selectedRegion := none } regionA2 =
      { regions := [regionA], selectedRegion := none } :=
  ⟨(addRegion_spec { regions := [regionA], selectedRegion := none } regionB).1
      (by decide),
   (addRegion_spec { regions := [regionA], selectedRegion := none } regionA2).2
      (by decide)⟩

/-- C10: the four list operations never touch selectedRegion (clearCart
in particular empties regions while keeping a pending selection), and
setSelectedRegion never touches the regions list. -/
theorem frame_properties (s : CartState) (r u : Region) (i : String)
    (p : Option Region) :
    (dispatch s (CartAction.addRegion r)).selectedRegion = s.selectedRegion ∧
    (dispatch s (CartAction.removeRegion i)).selectedRegion = s.selectedRegion ∧
    (dispatch s (CartAction.updateRegion u)).selectedRegion = s.selectedRegion ∧
    (dispatch s CartAction.clearCart).selectedRegion = s.selectedRegion ∧
    (dispatch s CartAction.clearCart).regions = [] ∧
    (dispatch s (CartAction.setSelectedRegion p)).regions = s.regions :=
  ⟨addRegion_selectedRegion_eq s r, removeRegion_selectedRegion_eq s i,
   updateRegion_selectedRegion_eq s u, clearCart_selectedRegion_eq s, rfl,
   dispatch_setSelectedRegion_regions s p⟩

/-- Counterexample to C3 as stated: the payload below is a Region, yet
setSelectedRegion does not store it — computeCenter throws on its
empty-coordinates Polygon geometry, the exception propagates out of the
reducer (modelled by the none result), and no selectedRegion update
happens. -/
theorem setSelectedRegion_throws_on_empty_polygon :
    setSelectedRegion initialState (some degenerateRegion) = none := by
  decide

/-- C3 amended: a null payload clears the selection; for a payload whose
geometry computeCenter accepts, the stored selection copies id, name and
geojson from the payload and carries the recomputed center (so a
caller-supplied center is never preserved verbatim); when computeCenter
throws, the reducer propagates the exception and stores nothing. -/
theorem setSelectedRegion_spec (s : CartState) (p : Region)
    (c : JsNum × JsNum) :
    (setSelectedRegion s none = some { s with selectedRegion := none }) ∧
    (computeCenter p.geojson = some c →
      setSelectedRegion s (some p) =
        some (CartState.mk s.regions
          (some (Region.mk p.id p.name p.geojson (some c))))) ∧
    (computeCenter p.geojson = none →
      setSelectedRegion s (some p) = none) := by
  refine ⟨rfl, ?_, ?_⟩
  · intro hc
    simp only [setSelectedRegion, hc]
  · intro hc
    simp only [setSelectedRegion, hc]

/-- Witness for C3 amended: a point payload with no caller center is
stored with the recomputed center (1, 2); the degenerate payload makes
the reducer throw. -/
theorem setSelectedRegion_spec_witness :
    setSelectedRegion initialState (some regionA) =
      some (CartState.mk []
        (some (Region.mk "a" "A" (ptFeature 1 2)
          (some (JsNum.num 1, JsNum.num 2))))) ∧
    setSelectedRegion initialState (some degenerateRegion) = none :=
  ⟨(setSelectedRegion_spec initialState regionA
      (JsNum.num 1, JsNum.num 2)).2.1 (by decide),
   (setSelectedRegion_spec initialState degenerateRegion
      (JsNum.num 0, JsNum.num 0)).2.2 (by decide)⟩

/-- Counterexample to C4 as stated: addRegion stores its payload
verbatim, so one addRegion action from the initial state yields a
reachable state holding a region whose present center (5, 5) differs
from computeCenter of its geometry, which is (1, 2). -/
theorem addRegion_stores_mismatched_center :
    (run [CartAction.addRegion badCenterRegion]).regions =
      [badCenterRegion] ∧
    badCenterRegion.center = some (JsNum.num 5, JsNum.num 5) ∧
    computeCenter badCenterRegion.geojson =
      some (JsNum.num 1, JsNum.num 2) ∧
    badCenterRegion.center ≠ computeCenter badCenterRegion.geojson := by
  decide

/-- C4 amended: the derived-center invariant holds for the selection
only — in every reachable state, selectedRegion (when present) carries a
center and it equals computeCenter of its geometry, because
setSelectedRegion recomputes it; addRegion and updateRegion store caller
payloads verbatim and do not enforce the invariant for entries of
regions. -/
theorem run_selectedRegion_center_derived (acts : List CartAction)
    (sel : Region) (h : (run acts).selectedRegion = some sel) :
    sel.center = computeCenter sel.geojson ∧ sel.center.isSome := by
  revert sel
  refine run_invariant (P := fun s => ∀ sel, s.selectedRegion = some sel →
    sel.center = computeCenter sel.geojson ∧ sel.center.isSome)
    ?_ ?_ acts
  · intro sel hsel
    simp [initialState] at hsel
  · intro s a hs
    cases a with
    | addRegion r =>
      intro sel hsel
      rw [show (dispatch s (CartAction.addRegion r)).selectedRegion
            = s.selectedRegion from addRegion_selectedRegion_eq s r] at hsel
      exact hs sel hsel
    | removeRegion i =>
      intro sel hsel
      exact hs sel hsel
    | clearCart =>
      intro sel hsel
      exact hs sel hsel
    | updateRegion r =>
      intro sel hsel
      rw [show (dispatch s (CartAction.updateRegion r)).selectedRegion
            = s.selectedRegion from updateRegion_selectedRegion_eq s r] at hsel
      exact hs sel hsel
    | setSelectedRegion p =>
      intro sel hsel
      cases p with
      | none =>
        simp [dispatch, setSelectedRegion] at hsel
      | some q =>
        cases hc : computeCenter q.geojson with
        | none =>
          have : dispatch s (CartAction.setSelectedRegion (some q)) = s := by
            simp [dispatch, setSelectedRegion, hc]
          rw [this] at hsel
          exact hs sel hsel
        | some c =>
          have : CartState.selectedRegion
                   (dispatch s (CartAction.setSelectedRegion (some q)))
              = some (Region.mk q.id q.name q.geojson (some c)) := by
            simp [dispatch, setSelectedRegion, hc]
          rw [this] at hsel
          injection hsel with hsel
          rw [← hsel]
          exact ⟨hc.symm, rfl⟩

/-- Witness for C4 amended: after one setSelectedRegion action the
selection carries center (1, 2), equal to computeCenter of its point
geometry. -/
theorem run_selectedRegion_center_derived_witness :
    (Region.mk "a" "A" (ptFeature 1 2)
        (some (JsNum.num 1, JsNum.num 2))).center =
      computeCenter (ptFeature 1 2) ∧
    ((Region.mk "a" "A" (ptFeature 1 2)
        (some (JsNum.num 1, JsNum.num 2))).center).isSome :=
  run_selectedRegion_center_derived
    [CartAction.setSelectedRegion (some regionA)]
    (Region.mk "a" "A" (ptFeature 1 2) (some (JsNum.num 1, JsNum.num 2)))
    (by decide)

/-- Counterexample to C5 as stated: on a MultiPolygon whose first
polygon has the square ring first, the computeCenter of utils/geo (the
one the cart store imports) returns the (0, 0) fallback and not the
first-ring mean (1, 1); the mean is produced only by the MapView-local
computeCenter. -/
theorem computeCenter_multiPolygon_fallback_cex :
    computeCenter mpSquareFeature = some (JsNum.num 0, JsNum.num 0) ∧
    mapViewComputeCenter mpSquareFeature = some (JsNum.num 1, JsNum.num 1) ∧
    some ((JsNum.num 0 : JsNum), (JsNum.num 0 : JsNum)) ≠
      some ((JsNum.num 1 : JsNum), (JsNum.num 1 : JsNum)) := by
  refine ⟨rfl, ?_, by decide⟩
  show some (jsDiv ((0 : ℚ) + 0 + 0 + 2 + 2) 4, jsDiv ((0 : ℚ) + 0 + 2 + 2 + 0) 4)
      = some (JsNum.num 1, JsNum.num 1)
  norm_num [jsDiv]

/-- C5 amended: the shared computeCenter used by the cart store treats
every MultiPolygon as an unsupported geometry and returns the (0, 0)
fallback; the first-ring-of-first-polygon averaging exists only in the
MapView-local computeCenter, which returns the componentwise mean of
the first ring of the first polygon (NaN components when that ring is
empty, matching the JS division by zero). -/
theorem computeCenter_multiPolygon_spec
    (polys : List (List (List (ℚ × ℚ)))) (ring : List (ℚ × ℚ))
    (rest : List (List (ℚ × ℚ))) (rest2 : List (List (List (ℚ × ℚ)))) :
    computeCenter { geometry := some (Geometry.multiPolygon polys) } =
      some (JsNum.num 0, JsNum.num 0) ∧
    mapViewComputeCenter
        { geometry := some (Geometry.multiPolygon ((ring :: rest) :: rest2)) } =
      some (jsDiv ((ring.map Prod.fst).foldl (· + ·) 0) ring.length,
            jsDiv ((ring.map Prod.snd).foldl (· + ·) 0) ring.length) := by
  refine ⟨rfl, ?_⟩
  simp [mapViewComputeCenter, List.length_map]

/-- Counterexample to C6 as stated: computeCenter is not total — on a
Polygon with an empty coordinates array, coordinates[0] is undefined
and the .map call throws a TypeError (modelled by the none result). -/
theorem computeCenter_empty_polygon_throws :
    computeCenter emptyPolygonFeature = none := rfl

/-- C6 amended: computeCenter is defined on every feature except a
Polygon-typed geometry with an empty coordinates array, where the JS
code throws; a missing geometry, an unsupported LineString, and a
MultiPolygon all return the defined (0, 0) fallback. -/
theorem computeCenter_total_spec (f : Feature) (cs : List (ℚ × ℚ))
    (ps : List (List (List (ℚ × ℚ)))) :
    (f.geometry ≠ some (Geometry.polygon []) → (computeCenter f).isSome) ∧
    computeCenter { geometry := none } = some (JsNum.num 0, JsNum.num 0) ∧
    computeCenter { geometry := some (Geometry.lineString cs) } =
      some (JsNum.num 0, JsNum.num 0) ∧
    computeCenter { geometry := some (Geometry.multiPolygon ps) } =
      some (JsNum.num 0, JsNum.num 0) := by
  refine ⟨?_, rfl, rfl, rfl⟩
  intro hne
  obtain ⟨g⟩ := f
  cases g with
  | none => rfl
  | some geom =>
    cases geom with
    | point c => rfl
    | lineString cs2 => rfl
    | multiPolygon ps2 => rfl
    | polygon rings =>
      cases rings with
      | nil => exact absurd rfl hne
      | cons ring rest => rfl

/-- Witness for C6 amended: a point feature is not the degenerate
polygon, and computeCenter is defined on it. -/
theorem computeCenter_total_spec_witness :
    (computeCenter (ptFeature 1 2)).isSome :=
  (computeCenter_total_spec (ptFeature 1 2) [] []).1 (by decide)

/-- C7: on a Polygon whose first ring is non-empty, computeCenter
returns the arithmetic mean of the ring coordinates — the mean of the
x components paired with the mean of the y components — and on the
4-point square ring it returns (1, 1). -/
theorem computeCenter_polygon_mean (v : ℚ × ℚ) (vs : List (ℚ × ℚ))
    (rest : List (List (ℚ × ℚ))) :
    computeCenter { geometry := some (Geometry.polygon ((v :: vs) :: rest)) } =
      some (JsNum.num (((v :: vs).map Prod.fst).sum / (v :: vs).length),
            JsNum.num (((v :: vs).map Prod.snd).sum / (v :: vs).length)) ∧
    computeCenter squareFeature = some (JsNum.num 1, JsNum.num 1) := by
  constructor
  · show some (jsDiv (((v :: vs).map Prod.fst).foldl (· + ·) 0)
                  ((v :: vs).map Prod.fst).length,
               jsDiv (((v :: vs).map Prod.snd).foldl (· + ·) 0)
                  ((v :: vs).map Prod.snd).length)
        = some (JsNum.num (((v :: vs).map Prod.fst).sum / (v :: vs).length),
                JsNum.num (((v :: vs).map Prod.snd).sum / (v :: vs).length))
    rw [foldl_add_eq_sum, foldl_add_eq_sum]
    simp [jsDiv, List.length_map]
  · show some (jsDiv ((0 : ℚ) + 0 + 0 + 2 + 2) 4, jsDiv ((0 : ℚ) + 0 + 2 + 2 + 0) 4)
        = some (JsNum.num 1, JsNum.num 1)
    norm_num [jsDiv]

/-- C8: when findIndex locates the payload id at index i, updateRegion
replaces in place — same length, payload at i, all other indices
untouched (selectedRegion is untouched as well, see frame lemmas); when
no region carries the id, the state is returned unchanged. -/
theorem updateRegion_spec (s : CartState) (r : Region) (i : ℕ) :
    (s.regions.findIdx? (fun x => x.id == r.id) = some i →
      (updateRegion s r).regions.length = s.regions.length ∧
      (updateRegion s r).regions[i]? = some r ∧
      ∀ j, j ≠ i → (updateRegion s r).regions[j]? = s.regions[j]?) ∧
    ((∀ x ∈ s.regions, x.id ≠ r.id) → updateRegion s r = s) := by
  constructor
  · intro h
    obtain ⟨hlt, -, -⟩ := List.findIdx?_eq_some_iff_getElem.mp h
    have hreg : (updateRegion s r).regions = s.regions.set i r := by
      unfold updateRegion
      rw [h]
    rw [hreg]
    refine ⟨List.length_set s.regions i r, List.getElem?_set_self hlt, ?_⟩
    intro j hj
    exact List.getElem?_set_ne (fun e => hj e.symm)
  · intro h
    have hnone : s.regions.findIdx? (fun x => x.id == r.id) = none :=
      List.findIdx?_eq_none_iff.mpr
        (fun x hx => beq_eq_false_iff_ne.mpr (h x hx))
    unfold updateRegion
    rw [hnone]

/-- Witness for C8: updating id b in a two-region cart keeps the length
and puts the new payload at index 1; updating the absent id c is the
identity. -/
theorem updateRegion_spec_witness :
    ((updateRegion twoRegionState regionB2).regions.length =
        twoRegionState.regions.length ∧
     (updateRegion twoRegionState regionB2).regions[1]? = some regionB2) ∧
    updateRegion twoRegionState regionC = twoRegionState :=
  ⟨⟨((updateRegion_spec twoRegionState regionB2 1).1 (by decide)).1,
    ((updateRegion_spec twoRegionState regionB2 1).1 (by decide)).2.1⟩,
   (updateRegion_spec twoRegionState regionC 0).2 (by decide)⟩

/-- C9 evaluated at the failing scenario: the geocode completion for
region b has been applied, so the current selection id is b; then the
stale completion for region a (a response that was meant for a
superseded selection, a differing from the current id b) is applied by
the code with no generation check, and it overwrites the selection to
a.  The claim requires the selection state to be unchanged by the stale
completion; the code changes it. -/
theorem stale_geocode_overwrites_selection :
    (handleSelectRegionResolved initialState "b" "Region B" (ptFeature 3 4)
        (some (JsNum.num 3, JsNum.num 4))).selectedRegion.map Region.id =
      some "b" ∧
    (handleSelectRegionResolved
        (handleSelectRegionResolved initialState "b" "Region B"
          (ptFeature 3 4) (some (JsNum.num 3, JsNum.num 4)))
        "a" "Stale A" (ptFeature 1 2)
        (some (JsNum.num 1, JsNum.num 2))).selectedRegion.map Region.id =
      some "a" ∧
    ("a" : String) ≠ "b" := by
  decide
